import Mathlib

/-!
Verification of the brachyura reverse proxy core against its specification.

The definitions below are a shallow embedding of the request-processing
pipeline of the source repository:
  - src/client.rs   : the upstream client (make_request)
  - src/lib.rs      : host extraction, header adjustment, the proxy handler
  - src/routing.rs  : backend matching and round-robin selection
  - src/metrics.rs  : metric recording

Rust strings are modelled by String, HashMap lookups by association lists,
hyper header maps by lists of name-value pairs with case-insensitive keys,
and downstream transport outcomes by an explicit inductive type.  Rust
panics (the expect calls in the handler) are modelled by an explicit
panic constructor of the handler outcome type.
-/

namespace Brachyura

/-! ## Characters and strings -/

/-- Lowercase a single character, as done by case-insensitive header name
comparison in hyper (header names are normalized to lowercase). -/
def charLower (c : Char) : Char :=
  if 65 ≤ c.toNat ∧ c.toNat ≤ 90 then Char.ofNat (c.toNat + 32) else c

/-- Lowercase a string. -/
def lowerStr (s : String) : String := String.mk (s.data.map charLower)

/-- The substring before the first colon.  Models the Rust expression
ip_or_host.split(":").next() of get_host in src/lib.rs, whose first
element is exactly the prefix before the first colon. -/
def takeBeforeColon (s : String) : String :=
  String.mk (s.data.takeWhile (fun c => !(c == (':'))))

/-- Split a character list at every occurrence of the separator.  Models
the Rust split iterator collected to a list; an empty input yields one
empty piece, like Rust. -/
def splitOnChar (sep : Char) : List Char → List Char → List (List Char)
  | [], acc => [acc.reverse]
  | c :: cs, acc =>
    if c == sep then acc.reverse :: splitOnChar sep cs []
    else splitOnChar sep cs (c :: acc)

/-! ## A model of the Rust std IpAddr textual grammar

The source (get_host in src/lib.rs) calls str::parse::<IpAddr>() from the
Rust standard library, an external collaborator.  The recognizers below
model its documented textual grammar: dotted-quad IPv4 with decimal
octets up to 255 and no leading zeros, and IPv6 with colon-separated
16-bit hex groups, at most one double-colon compression, and an optional
embedded IPv4 tail. -/

/-- Numeric value of a decimal digit string. -/
def octetVal (g : List Char) : Nat :=
  g.foldl (fun a c => a * 10 + (c.toNat - 48)) 0

/-- A valid IPv4 octet: nonempty, all digits, no leading zero, at most 255. -/
def validOctet : List Char → Bool
  | [] => false
  | c :: rest =>
    (c :: rest).all Char.isDigit &&
    (rest.isEmpty || !(c == ('0'))) &&
    decide (octetVal (c :: rest) ≤ 255)

/-- Dotted-quad IPv4 check on already-split groups. -/
def isIpv4Groups (gs : List (List Char)) : Bool :=
  gs.length == 4 && gs.all validOctet

/-- Recognizer for IPv4 literals as accepted by the Rust std. -/
def isIpv4Str (s : String) : Bool :=
  isIpv4Groups (splitOnChar ('.') s.data [])

/-- A hexadecimal digit. -/
def isHexDigitChar (c : Char) : Bool :=
  c.isDigit || (97 ≤ c.toNat && c.toNat ≤ 102) || (65 ≤ c.toNat && c.toNat ≤ 70)

/-- A valid IPv6 group: one to four hex digits. -/
def isH16 (g : List Char) : Bool :=
  !g.isEmpty && decide (g.length ≤ 4) && g.all isHexDigitChar

/-- Split at the first double colon, when present. -/
def splitDC : List Char → Option (List Char × List Char)
  | [] => none
  | (':') :: (':') :: rest => some ([], rest)
  | c :: rest => (splitDC rest).map (fun p => (c :: p.1, p.2))

/-- An optional embedded IPv4 tail in the last group. -/
def isIpv4Tail (gs : List (List Char)) : Bool :=
  match gs.getLast? with
  | some g => isIpv4Groups (splitOnChar ('.') g [])
  | none => false

/-- Recognizer for IPv6 literals as accepted by the Rust std.  Every
textual IPv6 form contains a colon, so this recognizer rejects all
colon-free strings. -/
def isIpv6Str (s : String) : Bool :=
  match splitDC s.data with
  | none =>
    let gs := splitOnChar (':') s.data []
    (gs.length == 8 && gs.all isH16) ||
    (gs.length == 7 && gs.dropLast.all isH16 && isIpv4Tail gs)
  | some (l, r) =>
    if (splitDC r).isSome then false
    else
      let ls := if l.isEmpty then [] else splitOnChar (':') l []
      let rs := if r.isEmpty then [] else splitOnChar (':') r []
      (ls.all isH16) &&
      (rs.all isH16 || (!rs.isEmpty && rs.dropLast.all isH16 && isIpv4Tail rs)) &&
      decide (ls.length + rs.length ≤ 7)

/-- Recognizer for the Rust std IpAddr parse used by get_host: an IPv4 or
an IPv6 literal. -/
def isIpAddrStr (s : String) : Bool := isIpv4Str s || isIpv6Str s

/-! ## HTTP data model -/

/-- HTTP versions, as in the hyper http crate. -/
inductive HttpVersion
  | http09
  | http10
  | http11
  | http2
  | http3
deriving DecidableEq

/-- The Rust Debug rendering of an http Version value, used by the
version-gate error body in proxy_handler. -/
def versionDebug : HttpVersion → String
  | .http09 => "HTTP/0.9"
  | .http10 => "HTTP/1.0"
  | .http11 => "HTTP/1.1"
  | .http2 => "HTTP/2.0"
  | .http3 => "HTTP/3.0"

/-- HTTP methods occurring in the source. -/
inductive HttpMethod
  | GET
  | HEAD
  | POST
  | PUT
  | DELETE
deriving DecidableEq

/-- Header list: name-value pairs; lookups are case-insensitive on the
name, modelling the hyper HeaderMap. -/
abbrev Headers := List (String × String)

/-- Case-insensitive header lookup (first match), with the queried name
given in lowercase. -/
def headerGet : Headers → String → Option String
  | [], _ => none
  | p :: hs, k => if lowerStr p.1 = k then some p.2 else headerGet hs k

/-- Case-insensitive presence test, modelling HeaderMap::contains_key. -/
def headerContainsKey (hs : Headers) (k : String) : Bool :=
  (headerGet hs k).isSome

/-- Case-insensitive removal of every value for a name, modelling
HeaderMap::remove. -/
def headerRemove : Headers → String → Headers
  | [], _ => []
  | p :: hs, k =>
    if lowerStr p.1 = k then headerRemove hs k else p :: headerRemove hs k

/-- HeaderMap::insert: replaces any existing values for the name. -/
def headerInsert (hs : Headers) (k v : String) : Headers :=
  headerRemove hs k ++ [(k, v)]

/-- The request URI: scheme, authority and path-and-query components, as
in the http crate Uri. -/
structure Uri where
  scheme : Option String
  authority : Option String
  pathAndQuery : Option String
deriving DecidableEq

/-- The path component, as returned by Uri::path: the prefix of the
path-and-query before any question mark, or a single slash. -/
def uriPath (u : Uri) : String :=
  match u.pathAndQuery with
  | some pq => String.mk (pq.data.takeWhile (fun c => !(c == ('?'))))
  | none => "/"

/-- An HTTP request as seen by the proxy handler. -/
structure Request where
  version : HttpVersion
  method : HttpMethod
  uri : Uri
  headers : Headers
  body : String
deriving DecidableEq

/-- An HTTP response.  The context field models the ResponseContext
extension of src/lib.rs carrying the chosen backend location. -/
structure Response where
  status : Nat
  body : String
  headers : Headers
  context : Option String
deriving DecidableEq

/-- Response::new with an empty body: status 200, no headers. -/
def Response.new : Response :=
  { status := 200, body := "", headers := [], context := none }

/-! ## Upstream client (src/client.rs, make_request)

The downstream transport outcome is the value the client matches on:
either the tokio timeout elapsed (the wall-clock deadline expired before
the response headers were received), or the hyper call finished with a
response or with a transport error carrying its is_connect and
is_timeout classification flags. -/

/-- Outcome of the timed hyper request inside make_request. -/
inductive DownstreamResult
  | response (resp : Response)
  | transportError (is_connect : Bool) (is_timeout : Bool)
  | elapsed
deriving DecidableEq

/-- Embedding of Client::make_request from src/client.rs: the response
synthesized for each downstream outcome.  The elapsed branch is the Err
case of the tokio timeout wrapper; the source sets
StatusCode::SERVICE_UNAVAILABLE there, which is 503. -/
def make_request : DownstreamResult → Response
  | .response r => r
  | .transportError is_connect is_timeout =>
    if is_connect then
      { Response.new with status := 503, body := "Cannot connect to backend" }
    else if is_timeout then
      { Response.new with status := 504, body := "Connection timeout" }
    else
      { Response.new with status := 500, body := "Unhandled error, see logs" }
  | .elapsed => { Response.new with status := 503, body := "Request timeout" }

/-- C1: the spec says that when the wall-clock deadline expires before the
downstream response headers are received, the client returns status 504
with body Request timeout.  Evaluating the embedded make_request at the
deadline-exceeded outcome shows the source instead returns status 503
(StatusCode::SERVICE_UNAVAILABLE) with that body, contradicting the
specification and the repository integration test proxied_backend_timeout,
which asserts 504. -/
theorem c1_deadline_gives_503 :
    make_request DownstreamResult.elapsed =
      { Response.new with status := 503, body := "Request timeout" } ∧
    (make_request DownstreamResult.elapsed).status ≠ 504 := by
  exact ⟨rfl, by decide⟩

/-- C7 counterexample: the claim states that every transport-level failure
other than a connect failure yields status 500 with body Unhandled error,
see logs.  A failure flagged is_timeout (and not is_connect) refutes it:
the source synthesizes 504 with body Connection timeout. -/
theorem c7_counterexample_timeout_error :
    make_request (DownstreamResult.transportError false true) ≠
      { Response.new with status := 500, body := "Unhandled error, see logs" } ∧
    make_request (DownstreamResult.transportError false true) =
      { Response.new with status := 504, body := "Connection timeout" } := by
  exact ⟨by decide, rfl⟩

/-- C7 amended: the upstream client classifies a pre-deadline failure as
follows: a connect failure yields 503 with body Cannot connect to backend;
otherwise a failure flagged as a timeout yields 504 with body Connection
timeout; any other transport-level failure yields 500 with body Unhandled
error, see logs.  The client is a total function of the downstream
outcome, so it always synthesizes a response, never surfaces an error and
never retries. -/
theorem c7_error_classification :
    ∀ (is_connect is_timeout : Bool),
      make_request (DownstreamResult.transportError is_connect is_timeout) =
        (if is_connect then
          { Response.new with status := 503, body := "Cannot connect to backend" }
        else if is_timeout then
          { Response.new with status := 504, body := "Connection timeout" }
        else
          { Response.new with status := 500, body := "Unhandled error, see logs" }) :=
  fun _ _ => rfl

/-! ## Host extraction (src/lib.rs, get_host) -/

/-- Embedding of get_host from src/lib.rs.  The host header is preferred,
falling back to the URI authority; the value is stripped of everything
from the first colon on; the literal localhost and anything the std
IpAddr grammar accepts are rejected (None); otherwise the stripped value
is returned.  The Rust split iterator always yields a first element, so
ip_or_host_no_port is always Some, mirrored here. -/
def get_host (req : Request) : Option String :=
  let host : Option String :=
    match headerGet req.headers ("host") with
    | some h => some h
    | none => req.uri.authority
  let ip_or_host : String := host.getD ("")
  let ip_or_host_no_port : Option String := some (takeBeforeColon ip_or_host)
  if ip_or_host_no_port = some ("localhost") then none
  else if isIpAddrStr (ip_or_host_no_port.getD ("")) then none
  else ip_or_host_no_port

/-! ## Routing (src/routing.rs) -/

/-- A backend declaration as deserialized from the configuration.  The
serde catch-all extras map of the source is omitted: no routing logic
reads it. -/
structure Backend where
  name : Option String
  location : Option String
  backend_type : Option String
  locations : Option (List String)
deriving DecidableEq

/-- The shared round-robin counter map, keyed by backend name.  Models the
RR_COUNTER HashMap of src/routing.rs as an association list where the
most recent insertion shadows older entries. -/
abbrev RRMap := List (String × Nat)

/-- HashMap lookup. -/
def mapGet : RRMap → String → Option Nat
  | [], _ => none
  | e :: m, k => if e.1 = k then some e.2 else mapGet m k

/-- HashMap insert (replaces the visible binding). -/
def mapInsert (m : RRMap) (k : String) (v : Nat) : RRMap := (k, v) :: m

/-- Embedding of match_backend from src/routing.rs: the first backend
whose name equals the host header. -/
def match_backend : List Backend → String → Option Backend
  | [], _ => none
  | b :: bs, host_header =>
    match b.name with
    | some n => if host_header = n then some b else match_backend bs host_header
    | none => match_backend bs host_header

/-- Embedding of round_robin_select from src/routing.rs.  The counter for
the backend is created at 0 on first use (returning the first location),
reset to 0 when it has reached the last index (returning the first
location), and otherwise incremented (returning the location at the new
index).  List indexing is modelled totally with get?; the source indexes
the vector directly, which cannot be out of range for the counter values
arising from a fresh counter and a nonempty location list. -/
def round_robin_select (backend_name : String) (backends : List String)
    (rr : RRMap) : Option String × RRMap :=
  let backend_count := backends.length
  match mapGet rr backend_name with
  | some cnt =>
    if cnt = backend_count - 1 then
      (backends.get? 0, mapInsert rr backend_name 0)
    else
      (backends.get? (cnt + 1), mapInsert rr backend_name (cnt + 1))
  | none => (backends.get? 0, mapInsert rr backend_name 0)

/-- Embedding of router from src/routing.rs: match the backend by host
header, then either round-robin over its locations (loadbalanced) or
return its single location; invalid configurations yield None.  The
source unwraps the backend name in the loadbalanced branch; match_backend
only returns named backends, so the defensive None arm here is
unreachable. -/
def router (backends : List Backend) (host_header : String) (rr : RRMap) :
    Option String × RRMap :=
  match match_backend backends host_header with
  | none => (none, rr)
  | some backend =>
    if backend.backend_type == some ("loadbalanced") then
      match backend.locations with
      | some locs =>
        match backend.name with
        | some nm => round_robin_select nm locs rr
        | none => (none, rr)
      | none => (none, rr)
    else if backend.location.isSome then
      (backend.location, rr)
    else (none, rr)

/-! ## Metrics (src/metrics.rs) -/

/-- Label values for both metric families: (status, backend). -/
abbrev MetricLabels := String × String

/-- State of the two metric families registered by src/metrics.rs: the
http_request_total counter and the http_request_duration_seconds
histogram (modelled as the list of recorded observations per label
vector). -/
structure MetricsState where
  http_request_counter : List (MetricLabels × Nat)
  http_request_duration : List (MetricLabels × List ℚ)
deriving DecidableEq

/-- Counter value for a label vector (0 when never touched). -/
def counterGet : List (MetricLabels × Nat) → MetricLabels → Nat
  | [], _ => 0
  | e :: m, k => if e.1 = k then e.2 else counterGet m k

/-- Histogram observations for a label vector. -/
def histGet : List (MetricLabels × List ℚ) → MetricLabels → List ℚ
  | [], _ => []
  | e :: m, k => if e.1 = k then e.2 else histGet m k

/-- Prometheus inc_by on the labelled counter. -/
def counterInc (m : List (MetricLabels × Nat)) (k : MetricLabels) (d : Nat) :
    List (MetricLabels × Nat) :=
  (k, counterGet m k + d) :: m

/-- Prometheus observe on the labelled histogram. -/
def histObserve (m : List (MetricLabels × List ℚ)) (k : MetricLabels) (v : ℚ) :
    List (MetricLabels × List ℚ) :=
  (k, histGet m k ++ [v]) :: m

/-- StatusCode::as_str: the numeric status code as an ASCII decimal
string. -/
def statusStr (status : Nat) : String := Nat.repr status

/-- Duration::as_secs_f64 with the duration given in nanoseconds, under
exact rational semantics (floating-point rounding is not modelled). -/
def as_secs_f64 (nanos : Nat) : ℚ := (nanos : ℚ) / 1000000000

/-- Embedding of record_metrics from src/metrics.rs: increment the
counter by 1 and record one duration observation, both labelled with the
status string of the response and the backend location. -/
def record_metrics (resp : Response) (backend_location : String)
    (durationNanos : Nat) (st : MetricsState) : MetricsState :=
  let labels : MetricLabels := (statusStr resp.status, backend_location)
  { http_request_counter := counterInc st.http_request_counter labels 1,
    http_request_duration :=
      histObserve st.http_request_duration labels (as_secs_f64 durationNanos) }

/-- Modelled from the spec: the metrics middleware wrapping the handler is
not under src/ (src/lib.rs only registers it as a route layer and
src/metrics.rs defines the recording helper above).  Per the spec it
records both metrics exactly when the response carries a ResponseContext,
using its backend location and the elapsed wall-clock duration, and
records nothing otherwise. -/
def metrics_middleware (resp : Response) (durationNanos : Nat)
    (st : MetricsState) : MetricsState :=
  match resp.context with
  | some loc => record_metrics resp loc durationNanos st
  | none => st

/-! ## Proxy handler (src/lib.rs) -/

/-- The hop-by-hop header set of src/lib.rs (HOP_BY_HOP_HEADERS), with
names in their canonical lowercase form. -/
def HOP_BY_HOP_HEADERS : List String :=
  ["keep-alive", "transfer-encoding", "te", "connection", "trailer",
   "upgrade", "proxy-authorization", "proxy-authenticate"]

/-- Embedding of adjust_proxied_headers from src/lib.rs: remove the
hop-by-hop headers, then insert the host header from the extracted host
authority and the x-no-proxy loop-prevention header.  A missing host
authority is the Err case of the source (the context call); header value
construction is assumed valid. -/
def adjust_proxied_headers (hs : Headers) (host_authority : Option String) :
    Option Headers :=
  match host_authority with
  | none => none
  | some h =>
    let stripped := HOP_BY_HOP_HEADERS.foldl headerRemove hs
    some (headerInsert (headerInsert stripped ("host") h) ("x-no-proxy") ("true"))

/-- The request rewrite performed in the proxying arm of proxy_handler:
the URI is rebuilt with scheme http, the chosen backend location as
authority and the original path-and-query; the headers are adjusted; the
version is forced to HTTP/1.1 (the scheme is hardcoded to http). -/
def rewritten_request (req : Request) (host_authority backend_location pq : String) :
    Option Request :=
  (adjust_proxied_headers req.headers (some host_authority)).map (fun hs =>
    { req with
      uri := { scheme := some ("http"), authority := some (backend_location),
               pathAndQuery := some (pq) },
      headers := hs,
      version := HttpVersion.http11 })

/-- Embedding of bad_request_handler from src/lib.rs. -/
def bad_request_handler (response : Response) (message : String) : Response :=
  { response with body := message, status := 400 }

/-- The version gate predicate of proxy_handler: HTTP/1.0, HTTP/1.1 and
HTTP/2 are supported. -/
def versionSupported : HttpVersion → Bool
  | .http10 | .http11 | .http2 => true
  | _ => false

/-- Outcome of one handler invocation: an HTTP response, or a Rust panic
(the expect calls on the per-request path of src/lib.rs). -/
inductive HandlerOutcome
  | ok (response : Response)
  | panic (msg : String)
deriving DecidableEq

/-- The body of proxy_handler after the version gate: host extraction,
the dispatch match on (method, path, no_proxy, host_authority), routing,
request rewrite and the upstream call.  The upstream client invocation
is abstracted as a function from the rewritten request to a response.
The two panic outcomes are the expect calls of the source: the catch-all
dispatch arm unwraps the host authority, and the proxying arm unwraps
path-and-query extraction and header adjustment. -/
def proxy_core (backends : List Backend) (rr : RRMap)
    (client : Request → Response) (encoded_metrics : Except String String)
    (req : Request) : HandlerOutcome × RRMap :=
  let response := Response.new
  let host_authority := get_host req
  let no_proxy := headerContainsKey req.headers ("x-no-proxy")
  if req.method == HttpMethod.GET && uriPath req.uri == "/status" && no_proxy then
    (HandlerOutcome.ok { response with body := "The proxy is running" }, rr)
  else if req.method == HttpMethod.GET && uriPath req.uri == "/metrics" && no_proxy then
    match encoded_metrics with
    | Except.ok enc =>
      (HandlerOutcome.ok { response with
          body := enc
          headers := headerInsert response.headers ("content-type")
            ("text/plain; charset=utf-8") }, rr)
    | Except.error e =>
      (HandlerOutcome.ok { response with
          body := ("Error encoding metrics: " ++ e)
          status := 500 }, rr)
  else if !no_proxy && host_authority.isNone then
    (HandlerOutcome.ok { response with
        body := "Host header not defined"
        status := 404 }, rr)
  else
    match host_authority with
    | none => (HandlerOutcome.panic ("unexpected missing host_authority"), rr)
    | some host =>
      match router backends host rr with
      | (none, rr2) => (HandlerOutcome.ok { response with status := 404 }, rr2)
      | (some backend_location, rr2) =>
        match req.uri.pathAndQuery with
        | none => (HandlerOutcome.panic ("Unable to extract path and query"), rr2)
        | some pq =>
          match rewritten_request req host backend_location pq with
          | none => (HandlerOutcome.panic ("Unable to adjust headers"), rr2)
          | some req_up =>
            (HandlerOutcome.ok { client req_up with context := some backend_location },
             rr2)

/-- Embedding of proxy_handler from src/lib.rs: the version gate followed
by proxy_core. -/
def proxy_handler (backends : List Backend) (rr : RRMap)
    (client : Request → Response) (encoded_metrics : Except String String)
    (req : Request) : HandlerOutcome × RRMap :=
  match req.version with
  | .http10 | .http11 | .http2 => proxy_core backends rr client encoded_metrics req
  | v =>
    (HandlerOutcome.ok
      (bad_request_handler Response.new
        ("Unsupported HTTP version: " ++ versionDebug v)), rr)

/-! ## Claim theorems on host extraction and the handler -/

/-- Host extraction as worded by the spec: normalize the extracted host
value by taking the substring before the first colon; the result is
undefined when the normalized value is the literal localhost or parses
as an IPv4 or IPv6 literal, and is the normalized value otherwise. -/
def get_host_spec (req : Request) : Option String :=
  let extracted : Option String :=
    match headerGet req.headers ("host") with
    | some h => some h
    | none => req.uri.authority
  let norm := takeBeforeColon (extracted.getD (""))
  if norm = "localhost" ∨ isIpAddrStr norm = true then none else some norm

/-- C6: get_host agrees everywhere with the specification wording: after
port stripping, the literal localhost and IP literals are rejected as
host identities, and any other normalized value (including the empty
string) is returned as the host identity. -/
theorem c6_host_classification : ∀ req : Request, get_host req = get_host_spec req := by
  intro req
  unfold get_host get_host_spec
  cases headerGet req.headers ("host") with
  | none =>
    by_cases h1 : takeBeforeColon (req.uri.authority.getD ("")) = "localhost"
    · simp [h1]
    · by_cases h2 : isIpAddrStr (takeBeforeColon (req.uri.authority.getD (""))) = true
      · simp [h1, h2]
      · simp [h1, h2]
  | some h =>
    by_cases h1 : takeBeforeColon h = "localhost"
    · simp [h1]
    · by_cases h2 : isIpAddrStr (takeBeforeColon h) = true
      · simp [h1, h2]
      · simp [h1, h2]

/-- C10: a defined Host header whose substring before the first colon is
empty (an empty Host value, or a bare IPv6 literal such as ::1) yields
the empty string as a defined host identity, so the request proceeds to
routing and, with no backend named by the empty string, receives a 404
with empty body rather than the 404 with body Host header not defined;
no upstream call is made (the result is the same for every client). -/
theorem c10_empty_normalized_host :
    get_host { version := HttpVersion.http11, method := HttpMethod.GET,
               uri := { scheme := none, authority := none, pathAndQuery := some ("/test") },
               headers := [("host", "")], body := "" } = some ("") ∧
    get_host { version := HttpVersion.http11, method := HttpMethod.GET,
               uri := { scheme := none, authority := none, pathAndQuery := some ("/test") },
               headers := [("host", "::1")], body := "" } = some ("") ∧
    ∀ client : Request → Response,
      proxy_handler
        [{ name := some ("test.home"), location := some ("127.0.0.1:8000"),
           backend_type := none, locations := none }]
        [] client (Except.ok (""))
        { version := HttpVersion.http11, method := HttpMethod.GET,
          uri := { scheme := none, authority := none, pathAndQuery := some ("/test") },
          headers := [("host", "::1")], body := "" } =
      (HandlerOutcome.ok { Response.new with status := 404 }, []) :=
  ⟨rfl, rfl, fun _ => rfl⟩

/-- C2: the claim that the per-request path never panics fails on the
source.  A request carrying the x-no-proxy header, an undefined host
identity (here a Host header of localhost) and a non-internal path falls
through every dispatch arm into the proxying arm, where the source
unwraps the absent host authority with expect and panics instead of
returning an HTTP response. -/
theorem c2_no_proxy_undefined_host_panics :
    (proxy_handler [] [] (fun _ => Response.new) (Except.ok (""))
        { version := HttpVersion.http11, method := HttpMethod.GET,
          uri := { scheme := none, authority := none, pathAndQuery := some ("/foo") },
          headers := [("host", "localhost"), ("x-no-proxy", "true")], body := "" }).1 =
      HandlerOutcome.panic ("unexpected missing host_authority") := rfl

/-- C4: the claim that every request with an undefined host identity not
dispatched to an internal endpoint receives a 404 with body Host header
not defined fails on the source: with the x-no-proxy header present the
404 arm (which requires no_proxy to be false) does not match and the
handler panics in the catch-all arm.  Without the x-no-proxy header the
source does answer 404 with that body, leaving the round-robin state
untouched and attaching no response context (hence no metric and no
upstream call). -/
theorem c4_undefined_host_dispatch :
    (proxy_handler [] [] (fun _ => Response.new) (Except.ok (""))
        { version := HttpVersion.http11, method := HttpMethod.PUT,
          uri := { scheme := none, authority := none, pathAndQuery := some ("/bar") },
          headers := [("host", "127.0.0.1"), ("x-no-proxy", "true")], body := "" }).1 =
      HandlerOutcome.panic ("unexpected missing host_authority") ∧
    ∀ client : Request → Response,
      proxy_handler [] [] client (Except.ok (""))
          { version := HttpVersion.http11, method := HttpMethod.PUT,
            uri := { scheme := none, authority := none, pathAndQuery := some ("/bar") },
            headers := [("host", "127.0.0.1")], body := "" } =
        (HandlerOutcome.ok { Response.new with
            body := "Host header not defined"
            status := 404 }, []) :=
  ⟨rfl, fun _ => rfl⟩

/-- C8: the version gate.  When the request version is outside HTTP/1.0,
HTTP/1.1 and HTTP/2 the handler immediately returns 400 with body
Unsupported HTTP version followed by the Debug rendering of the version,
with the round-robin state unchanged, no response context (so the
metrics middleware records nothing) and no dependence on the upstream
client; when the version is supported, processing proceeds to the body
of the handler after the gate. -/
theorem c8_version_gate :
    ∀ (backends : List Backend) (rr : RRMap) (client : Request → Response)
      (enc : Except String String) (req : Request),
      (versionSupported req.version = false →
        proxy_handler backends rr client enc req =
          (HandlerOutcome.ok
            (bad_request_handler Response.new
              ("Unsupported HTTP version: " ++ versionDebug req.version)), rr) ∧
        (bad_request_handler Response.new
          ("Unsupported HTTP version: " ++ versionDebug req.version)).context = none ∧
        ∀ (dn : Nat) (st : MetricsState),
          metrics_middleware
            (bad_request_handler Response.new
              ("Unsupported HTTP version: " ++ versionDebug req.version)) dn st = st) ∧
      (versionSupported req.version = true →
        proxy_handler backends rr client enc req =
          proxy_core backends rr client enc req) := by
  intro backends rr client enc req
  obtain ⟨v, m, u, hs, b⟩ := req
  cases v <;>
    simp [proxy_handler, versionSupported, bad_request_handler, metrics_middleware,
      Response.new]

/-- C8 witness: a concrete HTTP/3 request is answered by the gate with
the 400 response and an untouched metrics state. -/
theorem c8_version_gate_witness :
    versionSupported HttpVersion.http3 = false ∧
    proxy_handler [] [] (fun _ => Response.new) (Except.ok (""))
        { version := HttpVersion.http3, method := HttpMethod.GET,
          uri := { scheme := none, authority := none, pathAndQuery := some ("/x") },
          headers := [], body := "" } =
      (HandlerOutcome.ok
        (bad_request_handler Response.new
          ("Unsupported HTTP version: " ++ versionDebug HttpVersion.http3)), []) ∧
    metrics_middleware
        (bad_request_handler Response.new
          ("Unsupported HTTP version: " ++ versionDebug HttpVersion.http3)) 5
        { http_request_counter := [], http_request_duration := [] } =
      { http_request_counter := [], http_request_duration := [] } := by
  refine ⟨rfl, ?_, ?_⟩
  · exact ((c8_version_gate [] [] (fun _ => Response.new) (Except.ok (""))
      { version := HttpVersion.http3, method := HttpMethod.GET,
        uri := { scheme := none, authority := none, pathAndQuery := some ("/x") },
        headers := [], body := "" }).1 rfl).1
  · exact ((c8_version_gate [] [] (fun _ => Response.new) (Except.ok (""))
      { version := HttpVersion.http3, method := HttpMethod.GET,
        uri := { scheme := none, authority := none, pathAndQuery := some ("/x") },
        headers := [], body := "" }).1 rfl).2.2 5
      { http_request_counter := [], http_request_duration := [] }

/-! ## Round-robin selection (claim C3) -/

/-- The stream of locations produced by iterating round_robin_select,
threading the counter map. -/
def rrSeq (nm : String) (locs : List String) : Nat → RRMap → List (Option String)
  | 0, _ => []
  | k + 1, rr =>
    (round_robin_select nm locs rr).1 ::
      rrSeq nm locs k (round_robin_select nm locs rr).2

/-- The stream of locations produced by iterating router for a fixed host,
threading the counter map. -/
def routeSeq (backends : List Backend) (host : String) :
    Nat → RRMap → List (Option String)
  | 0, _ => []
  | k + 1, rr =>
    (router backends host rr).1 ::
      routeSeq backends host k (router backends host rr).2

lemma mapGet_insert_self (m : RRMap) (k : String) (v : Nat) :
    mapGet (mapInsert m k v) k = some v := by
  simp [mapGet, mapInsert]

lemma round_robin_fresh (nm : String) (locs : List String) (rr : RRMap)
    (h : mapGet rr nm = none) :
    round_robin_select nm locs rr = (locs.get? 0, mapInsert rr nm 0) := by
  simp [round_robin_select, h]

lemma round_robin_cont (nm : String) (locs : List String) (rr : RRMap) (c : Nat)
    (h : mapGet rr nm = some c) :
    round_robin_select nm locs rr =
      if c = locs.length - 1 then (locs.get? 0, mapInsert rr nm 0)
      else (locs.get? (c + 1), mapInsert rr nm (c + 1)) := by
  simp [round_robin_select, h]

lemma rrSeq_from (nm : String) (locs : List String) :
    ∀ (k : Nat) (rr : RRMap) (c : Nat),
      mapGet rr nm = some c → c < locs.length →
      rrSeq nm locs k rr =
        (List.range k).map (fun i => locs.get? ((c + 1 + i) % locs.length)) := by
  intro k
  induction k with
  | zero => intro rr c _ _; simp [rrSeq]
  | succ k ih =>
    intro rr c h hc
    have hN : 0 < locs.length := Nat.lt_of_le_of_lt (Nat.zero_le c) hc
    simp only [rrSeq]
    rw [round_robin_cont nm locs rr c h]
    rw [List.range_succ_eq_map]
    simp only [List.map_cons, List.map_map]
    by_cases hce : c = locs.length - 1
    · rw [if_pos hce]
      simp only []
      rw [ih (mapInsert rr nm 0) 0 (mapGet_insert_self rr nm 0) hN]
      congr 1
      · have h0 : (c + 1 + 0) % locs.length = 0 := by
          rw [show c + 1 + 0 = locs.length by omega]
          exact Nat.mod_self _
        rw [h0]
      · have hfg :
            (fun i => locs.get? ((0 + 1 + i) % locs.length)) =
              ((fun i => locs.get? ((c + 1 + i) % locs.length)) ∘ Nat.succ) := by
          funext i
          have h1 : c + 1 + Nat.succ i = locs.length + (1 + i) := by omega
          simp only [Function.comp]
          rw [h1, Nat.add_mod_left]
        rw [hfg]
    · rw [if_neg hce]
      have hc1 : c + 1 < locs.length := by omega
      simp only []
      rw [ih (mapInsert rr nm (c + 1)) (c + 1) (mapGet_insert_self rr nm (c + 1)) hc1]
      congr 1
      · rw [show c + 1 + 0 = c + 1 by omega, Nat.mod_eq_of_lt hc1]
      · have hfg :
            (fun i => locs.get? ((c + 1 + 1 + i) % locs.length)) =
              ((fun i => locs.get? ((c + 1 + i) % locs.length)) ∘ Nat.succ) := by
          funext i
          simp only [Function.comp]
          rw [show c + 1 + Nat.succ i = c + 1 + 1 + i by omega]
        rw [hfg]

/-- C3: for a load-balanced backend with a nonempty location list, and a
counter map with no entry yet for that backend, the stream of locations
returned by successive router calls for that backend visits the
locations cyclically starting at index 0: the i-th call returns the
location at index i modulo the number of locations. -/
theorem c3_round_robin :
    ∀ (backends : List Backend) (host nm : String) (locs : List String)
      (b : Backend) (rr : RRMap) (k : Nat),
      match_backend backends host = some b →
      b.backend_type = some ("loadbalanced") →
      b.name = some nm →
      b.locations = some locs →
      locs ≠ [] →
      mapGet rr nm = none →
      routeSeq backends host k rr =
        (List.range k).map (fun i => locs.get? (i % locs.length)) := by
  intro backends host nm locs b rr k hmb hbt hname hlocs hne hfresh
  have hrouter : ∀ m : RRMap, router backends host m = round_robin_select nm locs m := by
    intro m
    unfold router
    rw [hmb]
    simp [hbt, hname, hlocs]
  have hseq : ∀ (j : Nat) (m : RRMap), routeSeq backends host j m = rrSeq nm locs j m := by
    intro j
    induction j with
    | zero => intro m; rfl
    | succ j ih =>
      intro m
      simp only [routeSeq, rrSeq, hrouter]
      rw [ih]
  rw [hseq]
  have hN : 0 < locs.length := List.length_pos.mpr hne
  cases k with
  | zero => rfl
  | succ k =>
    simp only [rrSeq]
    rw [round_robin_fresh nm locs rr hfresh]
    simp only []
    rw [rrSeq_from nm locs k (mapInsert rr nm 0) 0 (mapGet_insert_self rr nm 0) hN]
    rw [List.range_succ_eq_map]
    simp only [List.map_cons, List.map_map]
    congr 1
    have hfg :
        (fun i => locs.get? ((0 + 1 + i) % locs.length)) =
          ((fun i => locs.get? (i % locs.length)) ∘ Nat.succ) := by
      funext i
      simp only [Function.comp]
      rw [show 0 + 1 + i = Nat.succ i by omega]
    rw [hfg]

/-- C3 witness: a concrete load-balanced registry with two locations
served five times from a fresh counter yields the strict cyclic order. -/
theorem c3_round_robin_witness :
    match_backend
        [{ name := some ("test-lb.home"), location := none,
           backend_type := some ("loadbalanced"),
           locations := some ["127.0.0.1:8000", "127.0.0.1:8001"] }] ("test-lb.home") =
      some { name := some ("test-lb.home"), location := none,
             backend_type := some ("loadbalanced"),
             locations := some ["127.0.0.1:8000", "127.0.0.1:8001"] } ∧
    (["127.0.0.1:8000", "127.0.0.1:8001"] : List String) ≠ [] ∧
    mapGet [] ("test-lb.home") = none ∧
    routeSeq
        [{ name := some ("test-lb.home"), location := none,
           backend_type := some ("loadbalanced"),
           locations := some ["127.0.0.1:8000", "127.0.0.1:8001"] }]
        ("test-lb.home") 5 [] =
      (List.range 5).map
        (fun i => (["127.0.0.1:8000", "127.0.0.1:8001"] : List String).get? (i % 2)) := by
  refine ⟨rfl, by decide, rfl, ?_⟩
  exact c3_round_robin
    [{ name := some ("test-lb.home"), location := none,
       backend_type := some ("loadbalanced"),
       locations := some ["127.0.0.1:8000", "127.0.0.1:8001"] }]
    ("test-lb.home") ("test-lb.home") ["127.0.0.1:8000", "127.0.0.1:8001"]
    { name := some ("test-lb.home"), location := none,
      backend_type := some ("loadbalanced"),
      locations := some ["127.0.0.1:8000", "127.0.0.1:8001"] }
    [] 5 rfl rfl rfl rfl (by decide) rfl

/-! ## Header lemmas for the rewrite contract (claim C5) -/

lemma mem_headerRemove : ∀ (hs : Headers) (k : String) (p : String × String),
    p ∈ headerRemove hs k → p ∈ hs ∧ lowerStr p.1 ≠ k := by
  intro hs k
  induction hs with
  | nil => intro p h; simp [headerRemove] at h
  | cons q hs ih =>
    intro p h
    simp only [headerRemove] at h
    by_cases hq : lowerStr q.1 = k
    · rw [if_pos hq] at h
      obtain ⟨h1, h2⟩ := ih p h
      exact ⟨List.mem_cons_of_mem q h1, h2⟩
    · rw [if_neg hq] at h
      rcases List.mem_cons.mp h with h1 | h1
      · subst h1
        exact ⟨List.mem_cons_self p hs, hq⟩
      · obtain ⟨h2, h3⟩ := ih p h1
        exact ⟨List.mem_cons_of_mem q h2, h3⟩

lemma mem_strip : ∀ (names : List String) (hs : Headers) (p : String × String),
    p ∈ names.foldl headerRemove hs → p ∈ hs ∧ ∀ nm ∈ names, lowerStr p.1 ≠ nm := by
  intro names
  induction names with
  | nil => intro hs p h; exact ⟨h, by simp⟩
  | cons nm names ih =>
    intro hs p h
    simp only [List.foldl_cons] at h
    obtain ⟨h1, h2⟩ := ih (headerRemove hs nm) p h
    obtain ⟨h3, h4⟩ := mem_headerRemove hs nm p h1
    refine ⟨h3, ?_⟩
    intro x hx
    rcases List.mem_cons.mp hx with hx1 | hx2
    · rw [hx1]; exact h4
    · exact h2 x hx2

lemma headerGet_remove_other : ∀ (hs : Headers) (k q : String), q ≠ k →
    headerGet (headerRemove hs k) q = headerGet hs q := by
  intro hs k q hne
  induction hs with
  | nil => rfl
  | cons p hs ih =>
    simp only [headerRemove, headerGet]
    by_cases hp : lowerStr p.1 = k
    · rw [if_pos hp]
      rw [if_neg (fun hq => hne ((hq.symm.trans hp)))]
      exact ih
    · rw [if_neg hp]
      simp only [headerGet]
      by_cases hq : lowerStr p.1 = q
      · rw [if_pos hq, if_pos hq]
      · rw [if_neg hq, if_neg hq]
        exact ih

lemma headerGet_single_append : ∀ (xs : Headers) (k v q : String),
    headerGet (xs ++ [(k, v)]) q =
      match headerGet xs q with
      | some r => some r
      | none => if lowerStr k = q then some v else none := by
  intro xs k v q
  induction xs with
  | nil => rfl
  | cons p xs ih =>
    simp only [List.cons_append, headerGet]
    by_cases hp : lowerStr p.1 = q
    · rw [if_pos hp, if_pos hp]
    · rw [if_neg hp, if_neg hp]
      exact ih

lemma headerGet_insert_self (hs : Headers) (k v : String) (hk : lowerStr k = k) :
    headerGet (headerInsert hs k v) k = some v := by
  unfold headerInsert
  rw [headerGet_single_append]
  have hnone : headerGet (headerRemove hs k) k = none := by
    induction hs with
    | nil => rfl
    | cons p hs ih =>
      simp only [headerRemove]
      by_cases hp : lowerStr p.1 = k
      · rw [if_pos hp]; exact ih
      · rw [if_neg hp]
        simp only [headerGet]
        rw [if_neg hp]
        exact ih
  rw [hnone]
  simp [hk]

lemma headerGet_insert_other (hs : Headers) (k v q : String)
    (hq : lowerStr k ≠ q) (hq2 : q ≠ k) :
    headerGet (headerInsert hs k v) q = headerGet hs q := by
  unfold headerInsert
  rw [headerGet_single_append]
  rw [headerGet_remove_other hs k q hq2]
  cases h : headerGet hs q with
  | some r => rfl
  | none => simp [hq]

/-- Shared reduction of the version gate: a supported version proceeds to
the handler body. -/
lemma proxy_handler_eq_core (backends : List Backend) (rr : RRMap)
    (client : Request → Response) (enc : Except String String) (req : Request)
    (hv : versionSupported req.version = true) :
    proxy_handler backends rr client enc req =
      proxy_core backends rr client enc req := by
  obtain ⟨v, m, u, hs, b⟩ := req
  cases v <;> simp [proxy_handler, versionSupported] at hv ⊢

/-- C5: whenever a request passes the version gate, is not dispatched to
an internal endpoint, has a defined host identity and a routable host
with a chosen backend location, the handler invokes the upstream client
on exactly the rewritten request, and that rewritten request preserves
the method, the body and the original path-and-query, uses scheme http
and the backend location as authority, has version HTTP/1.1, has its
Host header set to the extracted host identity, carries the header
x-no-proxy with value true, and contains no hop-by-hop header name under
case-insensitive comparison, whatever the original headers were. -/
theorem c5_request_rewrite_contract :
    ∀ (backends : List Backend) (rr rr2 : RRMap) (client : Request → Response)
      (enc : Except String String) (req : Request) (host loc pq : String),
      versionSupported req.version = true →
      (req.method == HttpMethod.GET && uriPath req.uri == "/status" &&
        headerContainsKey req.headers ("x-no-proxy")) = false →
      (req.method == HttpMethod.GET && uriPath req.uri == "/metrics" &&
        headerContainsKey req.headers ("x-no-proxy")) = false →
      get_host req = some host →
      router backends host rr = (some loc, rr2) →
      req.uri.pathAndQuery = some pq →
      ∃ req_up : Request,
        rewritten_request req host loc pq = some req_up ∧
        proxy_handler backends rr client enc req =
          (HandlerOutcome.ok { client req_up with context := some loc }, rr2) ∧
        req_up.method = req.method ∧
        req_up.body = req.body ∧
        req_up.uri = { scheme := some ("http"), authority := some (loc),
                       pathAndQuery := some (pq) } ∧
        req_up.version = HttpVersion.http11 ∧
        headerGet req_up.headers ("host") = some host ∧
        headerGet req_up.headers ("x-no-proxy") = some ("true") ∧
        ∀ p ∈ req_up.headers, lowerStr p.1 ∉ HOP_BY_HOP_HEADERS := by
  intro backends rr rr2 client enc req host loc pq hv hst hmt hget hrt hpq
  refine ⟨{ req with
      uri := { scheme := some ("http"), authority := some (loc),
               pathAndQuery := some (pq) }
      headers := headerInsert
        (headerInsert (HOP_BY_HOP_HEADERS.foldl headerRemove req.headers)
          ("host") host) ("x-no-proxy") ("true")
      version := HttpVersion.http11 }, rfl, ?_, rfl, rfl, rfl, rfl, ?_, ?_, ?_⟩
  · rw [proxy_handler_eq_core backends rr client enc req hv]
    simp only [proxy_core, hst, hmt, hget, hrt, hpq, Bool.false_eq_true, if_false,
      Option.isNone_some, Bool.and_false, rewritten_request, adjust_proxied_headers,
      Option.map_some']
  · rw [headerGet_insert_other _ _ _ _ (by decide) (by decide)]
    exact headerGet_insert_self _ _ _ rfl
  · exact headerGet_insert_self _ _ _ rfl
  · intro p hp
    unfold headerInsert at hp
    rcases List.mem_append.mp hp with hp1 | hp1
    · obtain ⟨hp2, _⟩ := mem_headerRemove _ _ _ hp1
      rcases List.mem_append.mp hp2 with hp3 | hp3
      · obtain ⟨hp4, _⟩ := mem_headerRemove _ _ _ hp3
        obtain ⟨_, hall⟩ := mem_strip _ _ _ hp4
        intro hmem
        exact hall (lowerStr p.1) hmem rfl
      · have hp5 : p = (("host" : String), host) := by
          simpa using hp3
        rw [hp5]
        show lowerStr ("host") ∉ HOP_BY_HOP_HEADERS
        decide
    · have hp5 : p = (("x-no-proxy" : String), ("true" : String)) := by
        simpa using hp1
      rw [hp5]
      decide

/-- C5 witness: a concrete proxied request with a keep-alive style header
is rewritten according to the contract. -/
theorem c5_request_rewrite_witness :
    versionSupported HttpVersion.http11 = true ∧
    get_host { version := HttpVersion.http11, method := HttpMethod.GET,
               uri := { scheme := none, authority := none,
                        pathAndQuery := some ("/test?x=1") },
               headers := [("host", "test.home:443"), ("Connection", "keep-alive")],
               body := "b" } = some ("test.home") ∧
    router [{ name := some ("test.home"), location := some ("127.0.0.1:8000"),
              backend_type := none, locations := none }] ("test.home") [] =
      (some ("127.0.0.1:8000"), []) ∧
    ∃ req_up : Request,
      rewritten_request
          { version := HttpVersion.http11, method := HttpMethod.GET,
            uri := { scheme := none, authority := none,
                     pathAndQuery := some ("/test?x=1") },
            headers := [("host", "test.home:443"), ("Connection", "keep-alive")],
            body := "b" } ("test.home") ("127.0.0.1:8000") ("/test?x=1") =
        some req_up ∧
      proxy_handler
          [{ name := some ("test.home"), location := some ("127.0.0.1:8000"),
             backend_type := none, locations := none }] []
          (fun _ => Response.new) (Except.ok (""))
          { version := HttpVersion.http11, method := HttpMethod.GET,
            uri := { scheme := none, authority := none,
                     pathAndQuery := some ("/test?x=1") },
            headers := [("host", "test.home:443"), ("Connection", "keep-alive")],
            body := "b" } =
        (HandlerOutcome.ok
          { (fun _ => Response.new) req_up with context := some ("127.0.0.1:8000") },
         []) ∧
      req_up.method = HttpMethod.GET ∧
      req_up.body = "b" ∧
      req_up.uri = { scheme := some ("http"), authority := some ("127.0.0.1:8000"),
                     pathAndQuery := some ("/test?x=1") } ∧
      req_up.version = HttpVersion.http11 ∧
      headerGet req_up.headers ("host") = some ("test.home") ∧
      headerGet req_up.headers ("x-no-proxy") = some ("true") ∧
      ∀ p ∈ req_up.headers, lowerStr p.1 ∉ HOP_BY_HOP_HEADERS := by
  refine ⟨rfl, rfl, rfl, ?_⟩
  have h := c5_request_rewrite_contract
    [{ name := some ("test.home"), location := some ("127.0.0.1:8000"),
       backend_type := none, locations := none }] [] []
    (fun _ => Response.new) (Except.ok (""))
    { version := HttpVersion.http11, method := HttpMethod.GET,
      uri := { scheme := none, authority := none,
               pathAndQuery := some ("/test?x=1") },
      headers := [("host", "test.home:443"), ("Connection", "keep-alive")],
      body := "b" }
    ("test.home") ("127.0.0.1:8000") ("/test?x=1")
    rfl rfl rfl rfl rfl rfl
  obtain ⟨req_up, h1, h2, h3, h4, h5, h6, h7, h8, h9⟩ := h
  exact ⟨req_up, h1, h2, h3, h4, h5, h6, h7, h8, h9⟩

/-! ## Metrics recording (claim C9) -/

/-- C9: for a response carrying a response context with a backend
location, the middleware performs exactly the recording of
record_metrics: the counter labelled with the decimal status string and
the backend location gains exactly 1, every other label vector is
unchanged, and the duration histogram at those labels gains exactly one
observation equal to the elapsed duration in fractional seconds, every
other label vector unchanged. -/
theorem c9_metrics_recording :
    ∀ (resp0 : Response) (loc : String) (dn : Nat) (st : MetricsState)
      (k : MetricLabels),
      metrics_middleware { resp0 with context := some loc } dn st =
        record_metrics { resp0 with context := some loc } loc dn st ∧
      counterGet (record_metrics resp0 loc dn st).http_request_counter k =
        (if k = (statusStr resp0.status, loc) then
          counterGet st.http_request_counter k + 1
         else counterGet st.http_request_counter k) ∧
      histGet (record_metrics resp0 loc dn st).http_request_duration k =
        (if k = (statusStr resp0.status, loc) then
          histGet st.http_request_duration k ++ [as_secs_f64 dn]
         else histGet st.http_request_duration k) := by
  intro resp0 loc dn st k
  refine ⟨rfl, ?_, ?_⟩
  · simp only [record_metrics, counterInc, counterGet]
    by_cases hk : k = (statusStr resp0.status, loc)
    · rw [hk]
    · rw [if_neg (fun h => hk h.symm), if_neg hk]
  · simp only [record_metrics, histObserve, histGet]
    by_cases hk : k = (statusStr resp0.status, loc)
    · rw [hk]
    · rw [if_neg (fun h => hk h.symm), if_neg hk]

end Brachyura
